import Mathlib

/-!
Verification of the indexed-allocator slab arenas and handle configs.

Addresses are modelled as natural numbers (byte addresses); an arena's
buffer is modelled by its base address plus, for the free-list words, a map
`buf : Nat → Nat` giving the first `Index`-sized word of each 1-based slot
(the only buffer bytes the arena itself ever reads or writes).  Machine
integers are `Nat` with explicit `% 2 ^ w` wherever the C++ performs a
narrowing conversion or may wrap: `Index` arithmetic is reduced `% 2 ^ W`
(`W` = handle width in bits, 16 or 32), the `uint16_t` element-size field
`% 2 ^ 16`, and the explicit `uint32_t` cast in `pointer_to` `% 2 ^ 32`.
Fallible operations return `Except`; `std::bad_alloc` is `OutOfMemory`.
-/

namespace Indexed

/-- Runtime allocation failure (C++ `std::bad_alloc`). -/
inductive AllocError where
  | OutOfMemory
deriving DecidableEq

/-- Configuration-time failures of `setCapacity` (C++ `std::length_error`
and `std::runtime_error`). -/
inductive ConfigError where
  | CapacityTooLarge
  | AllocationInProgress
deriving DecidableEq

/-- State of `indexed::ArrayArena<Index, Alloc>` (single-threaded slab
arena).  `bufAcquired` models `begin() != nullptr`; `buf i` is the first
`Index` word of slot `i` (1-based), the word the embedded free list is
threaded through. -/
structure ArrayArena where
  capacity : Nat            -- m_capacity : Index
  elementSizeInIndex : Nat  -- m_elementSizeInIndex : uint16_t
  doDelete : Bool           -- m_doDelete
  nextFree : Nat            -- m_nextFree : Index
  allocatedCount : Nat      -- m_allocatedCount : Index
  usedCapacity : Nat        -- m_usedCapacity : Index
  bufAcquired : Bool        -- begin() != nullptr
  buf : Nat → Nat           -- first Index word of each slot

/-- C++ `elementSize()`: `m_elementSizeInIndex * sizeof(Index)` where
`sizeof(Index) = W / 8`. -/
def ArrayArena.elementSize (W : Nat) (a : ArrayArena) : Nat :=
  a.elementSizeInIndex * (W / 8)

/-- C++ `getElementInt(index, elementSize())`: byte offset of slot `index`
from `begin()`, namely `elementSize * (index - 1)`. -/
def ArrayArena.getElement (W : Nat) (a : ArrayArena) (index : Nat) : Nat :=
  a.elementSize W * (index - 1)

/-- C++ `ArrayArena::pointer_to`, given `offset = ptr - begin()`:
`Index pos = uint32_t(offset / sizeof(Index)) / m_elementSizeInIndex;
return pos + 1;`.  The `uint32_t` cast truncates `% 2 ^ 32`; assigning to
`Index` and returning truncate `% 2 ^ W`. -/
def ArrayArena.pointer_to (W : Nat) (a : ArrayArena) (offset : Nat) : Nat :=
  let pos := (offset / (W / 8) % 2 ^ 32 / a.elementSizeInIndex) % 2 ^ W
  (pos + 1) % 2 ^ W

/-- C++ `ArrayArena::setCapacity`: refuses `capacity >= 1 << (W - 1)` with
`length_error`, refuses a live buffer with `runtime_error`, otherwise
stores the capacity. -/
def ArrayArena.setCapacity (W : Nat) (a : ArrayArena) (capacity : Nat) :
    Except ConfigError ArrayArena :=
  if 2 ^ (W - 1) ≤ capacity then .error .CapacityTooLarge
  else if a.bufAcquired then .error .AllocationInProgress
  else .ok { a with capacity := capacity }

/-- C++ `ArrayArena::allocate`.  Pops the free list when `m_nextFree != 0`;
otherwise fails when `m_usedCapacity == m_capacity`, else (acquiring the
buffer and locking the element size on the very first allocation) bumps
`m_usedCapacity` and returns it.  The `NewAlloc` buffer acquisition itself
is modelled as succeeding. -/
def ArrayArena.allocate (W : Nat) (a : ArrayArena) (typeSize : Nat) :
    Except AllocError (Nat × ArrayArena) :=
  if a.nextFree ≠ 0 then
    .ok (a.nextFree,
      { a with nextFree := a.buf a.nextFree,
               allocatedCount := (a.allocatedCount + 1) % 2 ^ W })
  else if a.usedCapacity = a.capacity then
    .error .OutOfMemory
  else
    let a1 := if a.bufAcquired then a
      else { a with bufAcquired := true,
                    elementSizeInIndex := typeSize / (W / 8) % 2 ^ 16 }
    let newUsed := (a1.usedCapacity + 1) % 2 ^ W
    .ok (newUsed,
      { a1 with usedCapacity := newUsed,
                allocatedCount := (a1.allocatedCount + 1) % 2 ^ W })

/-- C++ `ArrayArena::reset`: clears the free list, the live count and the
high-water mark; keeps the buffer. -/
def ArrayArena.reset (a : ArrayArena) : ArrayArena :=
  { a with nextFree := 0, allocatedCount := 0, usedCapacity := 0 }

/-- C++ `ArrayArena::deallocate`: decrements `m_allocatedCount` (an `Index`,
so wrapping `% 2 ^ W`); on reaching zero calls `reset()` and returns; else,
when deletion is enabled, writes the current `m_nextFree` into the slot's
first word and makes the slot the new free head. -/
def ArrayArena.deallocate (W : Nat) (a : ArrayArena) (index : Nat) (_typeSize : Nat) :
    ArrayArena :=
  let newCount := (a.allocatedCount + (2 ^ W - 1)) % 2 ^ W
  if newCount = 0 then
    a.reset
  else if a.doDelete then
    { a with allocatedCount := newCount,
             buf := Function.update a.buf index a.nextFree,
             nextFree := index }
  else
    { a with allocatedCount := newCount }

/-- C++ `ArrayArena::freeMemory`: forgets the element size, resets, and
releases the buffer. -/
def ArrayArena.freeMemory (a : ArrayArena) : ArrayArena :=
  { a.reset with elementSizeInIndex := 0, bufAcquired := false }

/-- State of `indexed::ArrayArenaMT<Index, Alloc>` (thread-safe slab arena),
here executed sequentially: each operation is one linearized call, which is
what the sticky-error claims are about.  `freeHead` is the full
`DoubleIndex` word of the lock-free list head, `(stamp << W) | head`.
`acquireCalls` instruments how many times `Alloc::malloc` (the buffer
source's acquire) has been invoked. -/
structure ArrayArenaMT where
  capacity : Nat            -- m_capacity : Index
  elementSizeInIndex : Nat  -- m_elementSizeInIndex : uint16_t
  doDelete : Bool           -- m_doDelete
  isAllocError : Bool       -- m_isAllocError
  freeHead : Nat            -- m_freeList.m_head : DoubleIndex
  usedCapacity : Nat        -- m_usedCapacity : atomic<Index>
  bufAcquired : Bool        -- begin() != nullptr
  buf : Nat → Nat           -- first Index word of each slot
  acquireCalls : Nat        -- number of Alloc::malloc invocations

/-- C++ `LockFreeSList::pull`, sequential execution (the CAS succeeds on
the first try): reads `head = Index(m_head)`; on 0 returns 0; otherwise
reads the successor from the slot's first word and installs
`(stamp + 1, successor)`. -/
def ArrayArenaMT.pull (W : Nat) (a : ArrayArenaMT) : Nat × ArrayArenaMT :=
  let head := a.freeHead % 2 ^ W
  if head = 0 then (0, a)
  else
    let stamp := a.freeHead / 2 ^ W
    (head, { a with freeHead := (stamp + 1) % 2 ^ W * 2 ^ W + a.buf head })

/-- C++ `LockFreeSList::push`, sequential execution: stores the observed
head into the freed slot's first word and installs `(stamp + 1, free)`. -/
def ArrayArenaMT.push (W : Nat) (a : ArrayArenaMT) (free : Nat) : ArrayArenaMT :=
  let stamp := a.freeHead / 2 ^ W
  { a with buf := Function.update a.buf free (a.freeHead % 2 ^ W),
           freeHead := (stamp + 1) % 2 ^ W * 2 ^ W + free }

/-- C++ `ArrayArenaMT::allocate` (with the inlined `allocateBuffer`
critical section), sequential execution.  `srcOk` tells whether the buffer
source's `malloc` would succeed if invoked.  Returns the call's result and
the post-state; on every failing path the fetch-add on `m_usedCapacity` is
rolled back by the catch block. -/
def ArrayArenaMT.allocate (W : Nat) (srcOk : Bool) (a : ArrayArenaMT) (typeSize : Nat) :
    Except AllocError Nat × ArrayArenaMT :=
  let pulled := a.pull W
  if pulled.1 ≠ 0 then (.ok pulled.1, pulled.2)
  else
    let a1 := pulled.2
    let futureCapacity := (a1.usedCapacity + 1) % 2 ^ W
    let a2 := { a1 with usedCapacity := futureCapacity }
    if a2.capacity < futureCapacity then
      (.error .OutOfMemory,
       { a2 with usedCapacity := (a2.usedCapacity + (2 ^ W - 1)) % 2 ^ W })
    else if a2.bufAcquired then
      (.ok futureCapacity, a2)
    else if a2.isAllocError then
      (.error .OutOfMemory,
       { a2 with usedCapacity := (a2.usedCapacity + (2 ^ W - 1)) % 2 ^ W })
    else
      let a3 := { a2 with acquireCalls := a2.acquireCalls + 1 }
      if srcOk then
        (.ok futureCapacity,
         { a3 with bufAcquired := true,
                   elementSizeInIndex := typeSize / (W / 8) % 2 ^ 16 })
      else
        (.error .OutOfMemory,
         { a3 with isAllocError := true,
                   usedCapacity := (a3.usedCapacity + (2 ^ W - 1)) % 2 ^ W })

/-- C++ `ArrayArenaMT::deallocate`: pushes onto the lock-free list when
deletion is enabled, otherwise does nothing at all. -/
def ArrayArenaMT.deallocate (W : Nat) (a : ArrayArenaMT) (index : Nat) (_typeSize : Nat) :
    ArrayArenaMT :=
  if a.doDelete then a.push W index else a

/-- C++ `ArrayArenaMT::freeMemory`: releases the buffer, forgets the
element size, clears the sticky allocation-error flag, and resets the free
list and the high-water mark. -/
def ArrayArenaMT.freeMemory (a : ArrayArenaMT) : ArrayArenaMT :=
  { a with bufAcquired := false, elementSizeInIndex := 0, isAllocError := false,
           freeHead := 0, usedCapacity := 0 }

/-- C++ `kMaxStackSize`: 2 MiB, as a `ptrdiff_t`. -/
def kMaxStackSize : Int := 2 * 1024 * 1024

/-- C++ `SingleArenaConfig::pointer_to` (simple one-tag-bit encoding):
computes `stackOffset = stackTop - ptr` and, when it lies in
`[0, kMaxStackSize)`, returns the stack encoding
`IndexType(stackOffset / kNodeAlignment) | kOnStackFlag`; only otherwise
does it fall through to `arena->pointer_to(ptr)`.  `base` is the arena
buffer's address (`arena->begin()`). -/
def SingleArenaConfig.pointer_to (W align stackTop base : Nat) (a : ArrayArena)
    (ptr : Nat) : Nat :=
  let stackOffset : Int := (stackTop : Int) - (ptr : Int)
  if 0 ≤ stackOffset ∧ stackOffset < kMaxStackSize then
    stackOffset.toNat / align % 2 ^ W ||| 2 ^ (W - 1)
  else
    a.pointer_to W (ptr - base)

/-- C++ `SingleArenaConfigUniversal::getElement` (two tag bits): tag `00`
decodes to the arena slot's address, the top bit to
`stackTop - kNodeAlignment * (index ^ kOnStackFlag)`, the second-top bit to
`container + (index ^ kContainerFlag)`. -/
def SingleArenaConfigUniversal.getElement (W align stackTop container base : Nat)
    (a : ArrayArena) (index : Nat) : Nat :=
  if index &&& (2 ^ (W - 2) ||| 2 ^ (W - 1)) = 0 then
    base + a.getElement W index
  else if index &&& 2 ^ (W - 1) ≠ 0 then
    stackTop - align * (index ^^^ 2 ^ (W - 1))
  else
    container + (index ^^^ 2 ^ (W - 2))

/-- C++ `SingleArenaConfigUniversal::pointer_to` (two tag bits): when
`kObjectSize == 0`, first tests the arena address range; then the stack
range; then the container body (byte offset from `container`, bounded by
`kObjectSize` when it is nonzero); finally falls back to the arena. -/
def SingleArenaConfigUniversal.pointer_to (W objSize align stackTop container base : Nat)
    (a : ArrayArena) (ptr : Nat) : Nat :=
  if objSize = 0 ∧ base ≤ ptr ∧ ptr < base + a.elementSize W * a.capacity then
    a.pointer_to W (ptr - base)
  else
    let stackOffset : Int := (stackTop : Int) - (ptr : Int)
    if 0 ≤ stackOffset ∧ stackOffset < kMaxStackSize then
      stackOffset.toNat / align % 2 ^ W ||| 2 ^ (W - 1)
    else
      let containerOffset : Int := (ptr : Int) - (container : Int)
      if objSize = 0 then
        (containerOffset % (2 ^ W : Int)).toNat ||| 2 ^ (W - 2)
      else if 0 ≤ containerOffset ∧ containerOffset < (objSize : Int) then
        (containerOffset % (2 ^ W : Int)).toNat ||| 2 ^ (W - 2)
      else
        a.pointer_to W (ptr - base)

/-- Concrete ST arena: capacity 2, element size one index word, buffer
acquired, nothing allocated. -/
def arenaLive : ArrayArena :=
  { capacity := 2, elementSizeInIndex := 1, doDelete := true, nextFree := 0,
    allocatedCount := 0, usedCapacity := 0, bufAcquired := true, buf := fun _ => 0 }

/-- Concrete ST arena holding exactly one live object. -/
def arenaOne : ArrayArena :=
  { capacity := 2, elementSizeInIndex := 1, doDelete := true, nextFree := 0,
    allocatedCount := 1, usedCapacity := 1, bufAcquired := true, buf := fun _ => 0 }

/-- Concrete ST arena with two of three slots handed out. -/
def arenaBusy : ArrayArena :=
  { capacity := 3, elementSizeInIndex := 1, doDelete := true, nextFree := 0,
    allocatedCount := 2, usedCapacity := 2, bufAcquired := true, buf := fun _ => 0 }

/-- Concrete 32-bit-index ST arena at full occupancy: 2 ^ 30 + 1 slots of
16 bytes, an accepted capacity for `uint32_t` handles. -/
def arenaWide : ArrayArena :=
  { capacity := 2 ^ 30 + 1, elementSizeInIndex := 4, doDelete := true, nextFree := 0,
    allocatedCount := 2 ^ 30 + 1, usedCapacity := 2 ^ 30 + 1, bufAcquired := true,
    buf := fun _ => 0 }

/-- Concrete ST arena with deletion disabled and two live objects. -/
def arenaNoDelete : ArrayArena :=
  { capacity := 4, elementSizeInIndex := 1, doDelete := false, nextFree := 0,
    allocatedCount := 2, usedCapacity := 3, bufAcquired := true, buf := fun _ => 0 }

/-- Concrete ST arena in its post-construction state. -/
def arenaFresh : ArrayArena :=
  { capacity := 0, elementSizeInIndex := 0, doDelete := true, nextFree := 0,
    allocatedCount := 0, usedCapacity := 0, bufAcquired := false, buf := fun _ => 0 }

/-- Concrete ST arena of four 2-byte slots, all handed out. -/
def arenaSmall : ArrayArena :=
  { capacity := 4, elementSizeInIndex := 1, doDelete := true, nextFree := 0,
    allocatedCount := 4, usedCapacity := 4, bufAcquired := true, buf := fun _ => 0 }

/-- Concrete ST arena with capacity set but element size not yet locked. -/
def arenaUnsized : ArrayArena :=
  { capacity := 4, elementSizeInIndex := 0, doDelete := true, nextFree := 0,
    allocatedCount := 0, usedCapacity := 0, bufAcquired := false, buf := fun _ => 0 }

/-- Concrete MT arena with deletion disabled. -/
def arenaMTNoDelete : ArrayArenaMT :=
  { capacity := 4, elementSizeInIndex := 1, doDelete := false, isAllocError := false,
    freeHead := 0, usedCapacity := 3, bufAcquired := true, buf := fun _ => 0,
    acquireCalls := 1 }

/-- Concrete MT arena whose one buffer-acquisition attempt has failed: the
sticky error flag is latched, no buffer is held. -/
def arenaMTErr : ArrayArenaMT :=
  { capacity := 4, elementSizeInIndex := 0, doDelete := true, isAllocError := true,
    freeHead := 0, usedCapacity := 0, bufAcquired := false, buf := fun _ => 0,
    acquireCalls := 1 }

/-- Unfolding lemma: `allocate` with a nonempty free list pops its head and
reads the successor from the slot's first word. -/
theorem ArrayArena.allocate_pop (W ts : Nat) (a : ArrayArena) (h : a.nextFree ≠ 0) :
    a.allocate W ts = .ok (a.nextFree,
      { a with nextFree := a.buf a.nextFree,
               allocatedCount := (a.allocatedCount + 1) % 2 ^ W }) := by
  simp [ArrayArena.allocate, h]

/-- Unfolding lemma: `allocate` with an empty free list and the high-water
mark at capacity fails with `OutOfMemory`. -/
theorem ArrayArena.allocate_full (W ts : Nat) (a : ArrayArena) (h0 : a.nextFree = 0)
    (h : a.usedCapacity = a.capacity) :
    a.allocate W ts = .error .OutOfMemory := by
  simp [ArrayArena.allocate, h0, h]

/-- Unfolding lemma: `allocate` with an empty free list, spare capacity and
the buffer already acquired bumps the high-water mark. -/
theorem ArrayArena.allocate_bump (W ts : Nat) (a : ArrayArena) (h0 : a.nextFree = 0)
    (h : a.usedCapacity ≠ a.capacity) (hb : a.bufAcquired = true) :
    a.allocate W ts = .ok ((a.usedCapacity + 1) % 2 ^ W,
      { a with usedCapacity := (a.usedCapacity + 1) % 2 ^ W,
               allocatedCount := (a.allocatedCount + 1) % 2 ^ W }) := by
  simp [ArrayArena.allocate, h0, h, hb]

/-- Unfolding lemma: the very first `allocate` additionally acquires the
buffer and locks the element size (truncated into the `uint16_t` field). -/
theorem ArrayArena.allocate_first (W ts : Nat) (a : ArrayArena) (h0 : a.nextFree = 0)
    (h : a.usedCapacity ≠ a.capacity) (hb : a.bufAcquired = false) :
    a.allocate W ts = .ok ((a.usedCapacity + 1) % 2 ^ W,
      { a with bufAcquired := true,
               elementSizeInIndex := ts / (W / 8) % 2 ^ 16,
               usedCapacity := (a.usedCapacity + 1) % 2 ^ W,
               allocatedCount := (a.allocatedCount + 1) % 2 ^ W }) := by
  simp [ArrayArena.allocate, h0, h, hb]

/-- C1: with the element size locked (so the buffer is held) and the
capacity within the `Index` range, `allocate` pops a nonzero `freeHead` and
installs the successor stored in the slot's first word; otherwise, with
spare capacity, it bumps `usedCapacity` and returns the new value; and it
fails with `OutOfMemory` exactly when the free list is empty and
`usedCapacity = capacity`. -/
theorem allocate_locked_algorithm (W : Nat) (a : ArrayArena) (ts : Nat)
    (hb : a.bufAcquired = true) (hcap : a.capacity < 2 ^ W) :
    (a.nextFree ≠ 0 →
      a.allocate W ts = .ok (a.nextFree,
        { a with nextFree := a.buf a.nextFree,
                 allocatedCount := (a.allocatedCount + 1) % 2 ^ W })) ∧
    (a.nextFree = 0 → a.usedCapacity < a.capacity →
      a.allocate W ts = .ok (a.usedCapacity + 1,
        { a with usedCapacity := a.usedCapacity + 1,
                 allocatedCount := (a.allocatedCount + 1) % 2 ^ W })) ∧
    (a.allocate W ts = .error .OutOfMemory ↔
      a.nextFree = 0 ∧ a.usedCapacity = a.capacity) := by
  refine ⟨ArrayArena.allocate_pop W ts a, ?_, ?_⟩
  · intro h0 hlt
    have hmod : (a.usedCapacity + 1) % 2 ^ W = a.usedCapacity + 1 :=
      Nat.mod_eq_of_lt (by omega)
    rw [ArrayArena.allocate_bump W ts a h0 (Nat.ne_of_lt hlt) hb, hmod]
  · constructor
    · intro h
      by_cases h1 : a.nextFree = 0
      · by_cases h2 : a.usedCapacity = a.capacity
        · exact ⟨h1, h2⟩
        · rw [ArrayArena.allocate_bump W ts a h1 h2 hb] at h
          exact absurd h (by simp)
      · rw [ArrayArena.allocate_pop W ts a h1] at h
        exact absurd h (by simp)
    · exact fun h => ArrayArena.allocate_full W ts a h.1 h.2

/-- C1 witness: the capacity-ceiling equivalence instantiated on a concrete
arena with the element size locked. -/
theorem allocate_locked_algorithm_witness :
    arenaLive.allocate 16 2 = .error .OutOfMemory ↔
      arenaLive.nextFree = 0 ∧ arenaLive.usedCapacity = arenaLive.capacity :=
  (allocate_locked_algorithm 16 arenaLive 2 rfl (by decide)).2.2

/-- C2 counterexample: with 32-bit handles, element size 16 bytes
(4 index words) and the accepted capacity `2 ^ 30 + 1`, the valid handle
`2 ^ 30 + 1` does not round-trip: the `uint32_t` cast inside `pointer_to`
truncates `offset / sizeof(Index) = 2 ^ 32` to 0, so `pointer_to` returns 1. -/
theorem roundtrip_uint32_truncation :
    1 ≤ 2 ^ 30 + 1 ∧ 2 ^ 30 + 1 ≤ arenaWide.usedCapacity ∧
    arenaWide.pointer_to 32 (arenaWide.getElement 32 (2 ^ 30 + 1)) ≠ 2 ^ 30 + 1 := by
  refine ⟨by norm_num, by norm_num [arenaWide], ?_⟩
  decide

/-- C2 amended: the handle round-trip `pointer_to (getElement h) = h` holds
for every valid handle `1 ≤ h ≤ usedCapacity ≤ capacity < 2 ^ (W-1)` with a
locked element size, provided `elementSizeInIndex * (h - 1) < 2 ^ 32`, i.e.
the `uint32_t` cast in `pointer_to` does not truncate (automatic for 16-bit
handles, violable for 32-bit ones). -/
theorem pointer_to_getElement_roundtrip (W : Nat) (a : ArrayArena) (h : Nat)
    (hisw : 0 < W / 8) (h1 : 1 ≤ h) (h2 : h ≤ a.usedCapacity)
    (h3 : a.usedCapacity ≤ a.capacity) (hcap : a.capacity < 2 ^ (W - 1))
    (hesii : 1 ≤ a.elementSizeInIndex)
    (hfit : a.elementSizeInIndex * (h - 1) < 2 ^ 32) :
    a.pointer_to W (a.getElement W h) = h := by
  have hWpow : (2 : Nat) ^ (W - 1) ≤ 2 ^ W :=
    Nat.pow_le_pow_right (by norm_num) (by omega)
  have hhW : h < 2 ^ W := by omega
  unfold ArrayArena.pointer_to ArrayArena.getElement ArrayArena.elementSize
  rw [show a.elementSizeInIndex * (W / 8) * (h - 1)
        = W / 8 * (a.elementSizeInIndex * (h - 1)) by ring]
  rw [Nat.mul_div_cancel_left _ hisw]
  rw [Nat.mod_eq_of_lt hfit]
  rw [Nat.mul_div_cancel_left _ hesii]
  rw [Nat.mod_eq_of_lt (show h - 1 < 2 ^ W by omega)]
  show (h - 1 + 1) % 2 ^ W = h
  rw [Nat.sub_add_cancel h1, Nat.mod_eq_of_lt hhW]

/-- C2 witness: the round-trip at handle 2 of a concrete 16-bit arena. -/
theorem pointer_to_getElement_roundtrip_witness :
    arenaBusy.pointer_to 16 (arenaBusy.getElement 16 2) = 2 :=
  pointer_to_getElement_roundtrip 16 arenaBusy 2 (by norm_num) (by norm_num)
    (by norm_num [arenaBusy]) (by norm_num [arenaBusy]) (by norm_num [arenaBusy])
    (by norm_num [arenaBusy]) (by norm_num [arenaBusy])

/-- C3: a `deallocate` that brings `allocatedCount` to zero resets the
arena — `usedCapacity = 0` and `freeHead = 0` immediately — and, when the
capacity is at least 1, the next `allocate` returns handle 1. -/
theorem deallocate_autoreset (W idx ts ts2 : Nat) (a : ArrayArena)
    (hW : 0 < W) (hcap : 1 ≤ a.capacity) (hone : a.allocatedCount = 1) :
    (a.deallocate W idx ts).usedCapacity = 0 ∧
    (a.deallocate W idx ts).nextFree = 0 ∧
    (a.deallocate W idx ts).allocatedCount = 0 ∧
    ∃ a2, (a.deallocate W idx ts).allocate W ts2 = .ok (1, a2) := by
  have h2W : 1 < 2 ^ W := by
    calc 1 < 2 ^ 1 := by norm_num
    _ ≤ 2 ^ W := Nat.pow_le_pow_right (by norm_num) (by omega)
  have hzero : (a.allocatedCount + (2 ^ W - 1)) % 2 ^ W = 0 := by
    rw [hone, show 1 + (2 ^ W - 1) = 2 ^ W by omega, Nat.mod_self]
  have hd : a.deallocate W idx ts = a.reset := by
    unfold ArrayArena.deallocate
    simp [hzero]
  rw [hd]
  refine ⟨rfl, rfl, rfl, ?_⟩
  have h0 : (a.reset).nextFree = 0 := rfl
  have hne : (a.reset).usedCapacity ≠ (a.reset).capacity := by
    show (0 : Nat) ≠ a.capacity
    omega
  have hone1 : ((a.reset).usedCapacity + 1) % 2 ^ W = 1 := by
    show (0 + 1) % 2 ^ W = 1
    rw [Nat.zero_add, Nat.mod_eq_of_lt h2W]
  by_cases hb : (a.reset).bufAcquired = true
  · exact ⟨_, by rw [ArrayArena.allocate_bump W ts2 _ h0 hne hb, hone1]⟩
  · have hb' : (a.reset).bufAcquired = false := by
      simpa using hb
    exact ⟨_, by rw [ArrayArena.allocate_first W ts2 _ h0 hne hb', hone1]⟩

/-- C3 witness: auto-reset on a concrete arena holding one live object. -/
theorem deallocate_autoreset_witness :
    (arenaOne.deallocate 16 1 2).usedCapacity = 0 ∧
    (arenaOne.deallocate 16 1 2).nextFree = 0 ∧
    (arenaOne.deallocate 16 1 2).allocatedCount = 0 ∧
    ∃ a2, (arenaOne.deallocate 16 1 2).allocate 16 2 = .ok (1, a2) :=
  deallocate_autoreset 16 1 2 2 arenaOne (by norm_num) (by norm_num [arenaOne]) rfl

/-- C4 counterexample: with deletion disabled the single-threaded
`deallocate` is not a no-op — it still decrements `m_allocatedCount`
(here from 2 to 1). -/
theorem deallocate_noDelete_changes_state :
    arenaNoDelete.doDelete = false ∧
    (arenaNoDelete.deallocate 16 1 2).allocatedCount ≠ arenaNoDelete.allocatedCount := by
  refine ⟨rfl, ?_⟩
  decide

/-- C4 amended: when `deleteEnabled` is false, the multi-threaded arena's
`deallocate` is a complete no-op; the single-threaded arena's `deallocate`
still decrements `allocatedCount` (wrapping `% 2 ^ W`, and auto-resetting
when the new count is zero), but provided the new count is nonzero it
leaves `freeHead`, `usedCapacity` and the buffer contents unchanged. -/
theorem deallocate_noDelete_effect (W idx ts : Nat) (am : ArrayArenaMT) (a : ArrayArena)
    (hm : am.doDelete = false) (ha : a.doDelete = false)
    (hc : (a.allocatedCount + (2 ^ W - 1)) % 2 ^ W ≠ 0) :
    am.deallocate W idx ts = am ∧
    a.deallocate W idx ts
      = { a with allocatedCount := (a.allocatedCount + (2 ^ W - 1)) % 2 ^ W } := by
  constructor
  · simp [ArrayArenaMT.deallocate, hm]
  · unfold ArrayArena.deallocate
    simp [ha, hc]

/-- C4 witness: the amended no-op/decrement behavior on concrete arenas. -/
theorem deallocate_noDelete_effect_witness :
    arenaMTNoDelete.deallocate 16 1 2 = arenaMTNoDelete ∧
    arenaNoDelete.deallocate 16 1 2
      = { arenaNoDelete with
            allocatedCount := (arenaNoDelete.allocatedCount + (2 ^ 16 - 1)) % 2 ^ 16 } :=
  deallocate_noDelete_effect 16 1 2 arenaMTNoDelete arenaNoDelete rfl rfl (by decide)

/-- C5 counterexample: with 16-bit handles, the capacity `2 ^ 14` — at the
universal-encoding bound `2 ^ (W-2)` — is accepted by `setCapacity`; no
config-time check in the universal config refuses it. -/
theorem setCapacity_accepts_universal_bound :
    arenaFresh.setCapacity 16 (2 ^ 14) = .ok { arenaFresh with capacity := 2 ^ 14 } := by
  rfl

/-- C5 amended: `setCapacity` refuses exactly the capacities at or above
`2 ^ (W-1)` (with `CapacityTooLarge`); every smaller capacity is accepted
when no buffer is held, including those in `[2 ^ (W-2), 2 ^ (W-1))` — the
universal config imposes no additional config-time capacity check. -/
theorem setCapacity_threshold (W n : Nat) (a : ArrayArena)
    (hb : a.bufAcquired = false) :
    (2 ^ (W - 1) ≤ n → a.setCapacity W n = .error .CapacityTooLarge) ∧
    (n < 2 ^ (W - 1) → a.setCapacity W n = .ok { a with capacity := n }) := by
  constructor
  · intro h
    simp [ArrayArena.setCapacity, h]
  · intro h
    simp [ArrayArena.setCapacity, Nat.not_le.mpr h, hb]

/-- C5 witness: the threshold behavior at `W = 16`, capacity `2 ^ 14`. -/
theorem setCapacity_threshold_witness :
    (2 ^ (16 - 1) ≤ 2 ^ 14 →
      arenaFresh.setCapacity 16 (2 ^ 14) = .error .CapacityTooLarge) ∧
    (2 ^ 14 < 2 ^ (16 - 1) →
      arenaFresh.setCapacity 16 (2 ^ 14) = .ok { arenaFresh with capacity := 2 ^ 14 }) :=
  setCapacity_threshold 16 (2 ^ 14) arenaFresh rfl

/-- C6: once a buffer-acquisition attempt has failed (`isAllocError`
latched, no buffer held, free list empty), every subsequent `allocate`
fails with `OutOfMemory`, never invokes the buffer source's acquire
(`acquireCalls` unchanged), and leaves the sticky flag latched — whatever
the buffer source would now answer. -/
theorem sticky_allocation_error (W ts : Nat) (srcOk : Bool) (a : ArrayArenaMT)
    (herr : a.isAllocError = true) (hbuf : a.bufAcquired = false)
    (hfree : a.freeHead % 2 ^ W = 0) :
    ((a.allocate W srcOk ts).1 = .error .OutOfMemory) ∧
    ((a.allocate W srcOk ts).2.acquireCalls = a.acquireCalls) ∧
    ((a.allocate W srcOk ts).2.isAllocError = true) ∧
    ((a.allocate W srcOk ts).2.bufAcquired = false) := by
  have hpull : a.pull W = (0, a) := by
    simp [ArrayArenaMT.pull, hfree]
  unfold ArrayArenaMT.allocate
  rw [hpull]
  by_cases hcap : a.capacity < (a.usedCapacity + 1) % 2 ^ W
  · simp [hcap, herr, hbuf]
  · simp [hcap, herr, hbuf]

/-- C6 witness: the sticky failure on a concrete latched MT arena. -/
theorem sticky_allocation_error_witness :
    ((arenaMTErr.allocate 16 true 4).1 = .error .OutOfMemory) ∧
    ((arenaMTErr.allocate 16 true 4).2.acquireCalls = arenaMTErr.acquireCalls) ∧
    ((arenaMTErr.allocate 16 true 4).2.isAllocError = true) ∧
    ((arenaMTErr.allocate 16 true 4).2.bufAcquired = false) :=
  sticky_allocation_error 16 4 true arenaMTErr rfl rfl (by decide)

/-- C7 counterexample: the simple config's `pointer_to` tests the stack
range first.  With `stackTop = 2000` and the arena buffer at `[1000, 1008)`
(four 2-byte slots), the in-arena address 1000 lies within `kMaxStackSize`
below the stack top and therefore gets a stack encoding, not
`arena.pointer_to`. -/
theorem simple_config_stack_shadows_arena :
    1000 ≤ 1000 ∧ 1000 < 1000 + arenaSmall.elementSize 16 * arenaSmall.capacity ∧
    SingleArenaConfig.pointer_to 16 2 2000 1000 arenaSmall 1000
      ≠ arenaSmall.pointer_to 16 (1000 - 1000) := by
  refine ⟨by norm_num, by norm_num [arenaSmall, ArrayArena.elementSize], ?_⟩
  decide

/-- C7 amended: the simple config tests the stack range first; only for an
address outside the half-open stack span does it return
`arena.pointer_to(addr)`.  For such an address inside the arena range (with
a locked element size, an accepted capacity and no `uint32_t` truncation)
the result is the arena handle, whose tag bit is 0. -/
theorem simple_config_arena_when_outside_stack (W align stackTop base ptr : Nat)
    (a : ArrayArena) (hisw : 0 < W / 8) (hesii : 1 ≤ a.elementSizeInIndex)
    (hlo : base ≤ ptr) (hhi : ptr < base + a.elementSize W * a.capacity)
    (hcap : a.capacity < 2 ^ (W - 1))
    (hfit : a.elementSizeInIndex * a.capacity ≤ 2 ^ 32)
    (hstack : ¬ (0 ≤ (stackTop : Int) - (ptr : Int) ∧
                 (stackTop : Int) - (ptr : Int) < kMaxStackSize)) :
    SingleArenaConfig.pointer_to W align stackTop base a ptr
      = a.pointer_to W (ptr - base) ∧
    a.pointer_to W (ptr - base) < 2 ^ (W - 1) := by
  have hWpow : (2 : Nat) ^ (W - 1) ≤ 2 ^ W :=
    Nat.pow_le_pow_right (by norm_num) (by omega)
  refine ⟨?_, ?_⟩
  · simp only [SingleArenaConfig.pointer_to]
    rw [if_neg hstack]
  · have hofflt : ptr - base < a.elementSizeInIndex * (W / 8) * a.capacity := by
      have := hhi
      unfold ArrayArena.elementSize at this
      omega
    have hp0 : (ptr - base) / (W / 8) < a.elementSizeInIndex * a.capacity := by
      rw [Nat.div_lt_iff_lt_mul hisw]
      calc ptr - base < a.elementSizeInIndex * (W / 8) * a.capacity := hofflt
      _ = a.elementSizeInIndex * a.capacity * (W / 8) := by ring
    have hm32 : (ptr - base) / (W / 8) % 2 ^ 32 = (ptr - base) / (W / 8) :=
      Nat.mod_eq_of_lt (lt_of_lt_of_le hp0 hfit)
    have hp1 : (ptr - base) / (W / 8) / a.elementSizeInIndex < a.capacity := by
      rw [Nat.div_lt_iff_lt_mul hesii]
      calc (ptr - base) / (W / 8) < a.elementSizeInIndex * a.capacity := hp0
      _ = a.capacity * a.elementSizeInIndex := by ring
    unfold ArrayArena.pointer_to
    rw [hm32]
    rw [Nat.mod_eq_of_lt
      (show (ptr - base) / (W / 8) / a.elementSizeInIndex < 2 ^ W by omega)]
    rw [Nat.mod_eq_of_lt (by omega)]
    omega

/-- C7 witness: a concrete in-arena address with the stack top far away
decodes through the arena with a clear tag bit. -/
theorem simple_config_arena_when_outside_stack_witness :
    SingleArenaConfig.pointer_to 16 2 0 1000 arenaSmall 1002
      = arenaSmall.pointer_to 16 (1002 - 1000) ∧
    arenaSmall.pointer_to 16 (1002 - 1000) < 2 ^ (16 - 1) :=
  simple_config_arena_when_outside_stack 16 2 0 1000 1002 arenaSmall
    (by norm_num) (by norm_num [arenaSmall])
    (by norm_num) (by norm_num [arenaSmall, ArrayArena.elementSize])
    (by norm_num [arenaSmall]) (by norm_num [arenaSmall]) (by decide)

/-- C8 counterexample: with the 16-bit universal config, node alignment 2
and `stackTop = 0x7fffff00`, the address `0x7ffffefe` is 2 bytes (not 8)
below the top, so `pointer_to` yields `(2/2) | 0x8000 = 0x8001`, not
`0x8004`. -/
theorem stack_example_wrong_address :
    SingleArenaConfigUniversal.pointer_to 16 0 2 0x7fffff00 0 0 arenaFresh 0x7ffffefe
      = 0x8001 ∧ (0x8001 : Nat) ≠ 0x8004 := by
  refine ⟨?_, by norm_num⟩
  decide

/-- C8 amended: the address 8 bytes below the top, `0x7ffffef8`, encodes
to `(8/2) | 0x8000 = 0x8004`, and `getElement (0x8004)` decodes back to
`0x7fffff00 - 2 * 4 = 0x7ffffef8`. -/
theorem stack_example_corrected :
    SingleArenaConfigUniversal.pointer_to 16 0 2 0x7fffff00 0 0 arenaFresh 0x7ffffef8
      = 0x8004 ∧
    SingleArenaConfigUniversal.getElement 16 2 0x7fffff00 0 0 arenaFresh 0x8004
      = 0x7ffffef8 := by
  constructor
  · decide
  · decide

/-- C9: the first successful `allocate(typeSize)` stores
`typeSize / sizeof(Index)` truncated into the `uint16_t`
`m_elementSizeInIndex` field with no validation; for `typeSize` a multiple
of `sizeof(Index)`, `elementSize() = typeSize` holds iff
`typeSize / sizeof(Index) < 2 ^ 16`. -/
theorem elementSize_uint16_truncation (W ts : Nat) (a : ArrayArena)
    (hisw : 0 < W / 8) (hb : a.bufAcquired = false) (hf : a.nextFree = 0)
    (hne : a.usedCapacity ≠ a.capacity) (hdvd : W / 8 ∣ ts) :
    ∃ idx a2, a.allocate W ts = .ok (idx, a2) ∧
      a2.elementSizeInIndex = ts / (W / 8) % 2 ^ 16 ∧
      (a2.elementSize W = ts ↔ ts / (W / 8) < 2 ^ 16) := by
  refine ⟨_, _, ArrayArena.allocate_first W ts a hf hne hb, rfl, ?_⟩
  obtain ⟨k, hk⟩ := hdvd
  subst hk
  rw [Nat.mul_div_cancel_left _ hisw]
  show k % 2 ^ 16 * (W / 8) = W / 8 * k ↔ k < 2 ^ 16
  constructor
  · intro hEq
    have hcancel : k % 2 ^ 16 = k := by
      apply Nat.eq_of_mul_eq_mul_right hisw
      rw [hEq, Nat.mul_comm]
    have := Nat.mod_lt k (show 0 < 2 ^ 16 by norm_num)
    omega
  · intro hk16
    rw [Nat.mod_eq_of_lt hk16, Nat.mul_comm]

/-- C9 witness: `allocate` with a 32-bit index and `typeSize = 4 * 2 ^ 16`
(one word too many for the `uint16_t` field) stores a truncated size, so
`elementSize()` no longer equals `typeSize`. -/
theorem elementSize_uint16_truncation_witness :
    ∃ idx a2, arenaUnsized.allocate 32 (4 * 2 ^ 16) = .ok (idx, a2) ∧
      a2.elementSizeInIndex = 4 * 2 ^ 16 / (32 / 8) % 2 ^ 16 ∧
      (a2.elementSize 32 = 4 * 2 ^ 16 ↔ 4 * 2 ^ 16 / (32 / 8) < 2 ^ 16) :=
  elementSize_uint16_truncation 32 (4 * 2 ^ 16) arenaUnsized (by norm_num) rfl rfl
    (by norm_num [arenaUnsized]) (by norm_num)

/-- C10: `ArrayArenaMT.freeMemory` clears the sticky allocation-error flag
as well as the buffer, the element size, the free list and the high-water
mark; afterwards (capacity permitting) the next `allocate` invokes the
buffer source's acquire again — `acquireCalls` grows by one — whatever the
source now answers. -/
theorem freeMemory_clears_sticky_error (W ts : Nat) (srcOk : Bool) (a : ArrayArenaMT)
    (hW : 0 < W) (hcap : 1 ≤ a.capacity) :
    a.freeMemory.isAllocError = false ∧
    a.freeMemory.bufAcquired = false ∧
    a.freeMemory.elementSizeInIndex = 0 ∧
    a.freeMemory.freeHead = 0 ∧
    (a.freeMemory.allocate W srcOk ts).2.acquireCalls = a.acquireCalls + 1 := by
  have h2W : 1 < 2 ^ W := by
    calc 1 < 2 ^ 1 := by norm_num
    _ ≤ 2 ^ W := Nat.pow_le_pow_right (by norm_num) (by omega)
  refine ⟨rfl, rfl, rfl, rfl, ?_⟩
  have hpull : a.freeMemory.pull W = (0, a.freeMemory) := by
    simp [ArrayArenaMT.pull, ArrayArenaMT.freeMemory]
  have hone : (a.freeMemory.usedCapacity + 1) % 2 ^ W = 1 := by
    show (0 + 1) % 2 ^ W = 1
    rw [Nat.zero_add, Nat.mod_eq_of_lt h2W]
  unfold ArrayArenaMT.allocate
  rw [hpull]
  cases srcOk <;>
    simp [ArrayArenaMT.freeMemory, Nat.mod_eq_of_lt h2W,
          show ¬ a.capacity < 1 by omega]

/-- C10 witness: `freeMemory` on the concrete latched MT arena, followed by
an `allocate` that retries the buffer source. -/
theorem freeMemory_clears_sticky_error_witness :
    arenaMTErr.freeMemory.isAllocError = false ∧
    arenaMTErr.freeMemory.bufAcquired = false ∧
    arenaMTErr.freeMemory.elementSizeInIndex = 0 ∧
    arenaMTErr.freeMemory.freeHead = 0 ∧
    (arenaMTErr.freeMemory.allocate 16 true 4).2.acquireCalls
      = arenaMTErr.acquireCalls + 1 :=
  freeMemory_clears_sticky_error 16 4 true arenaMTErr (by norm_num)
    (by norm_num [arenaMTErr])

end Indexed
